import Mathlib

/-!
Shallow embedding of `plugin.py` from signalk-victron-ble: the Signal K
field transformers, delta assembly, registry lookup and the per-frame
callback, with theorems checking the specification's claims about them.

Numbers are modelled as rationals; Python `None` is `Option.none`.
-/

namespace SignalKVictron

/-- A primitive Signal K value: a number or a string (Python float / str). -/
inductive SKPrim
  | num (q : ℚ)
  | str (s : String)
deriving DecidableEq

/-- One `{"path": ..., "value": ...}` entry of a delta's `values` list.
`value = none` models an explicit JSON `null` (Python `None`). -/
structure PathValue where
  path : String
  value : Option SKPrim
deriving DecidableEq

/-- An enumerated device state as delivered by the decoding library:
only its symbolic name is observable to the plugin (`value.name`). -/
structure EnumVal where
  name : String
deriving DecidableEq

/-- Auxiliary-channel mode of a battery monitor / DC energy meter reading
(`victron_ble.devices.AuxMode`). -/
inductive AuxMode
  | STARTER_VOLTAGE
  | MIDPOINT_VOLTAGE
  | TEMPERATURE
  | DISABLED
deriving DecidableEq

/-- Measurement type of a DC energy meter
(`victron_ble.devices.dc_energy_meter.MeterType`); exactly the values the
plugin's category table names. -/
inductive MeterType
  | SOLAR_CHARGER
  | WIND_CHARGER
  | SHAFT_GENERATOR
  | FUEL_CELL
  | WATER_GENERATOR
  | DC_DC_CHARGER
  | AC_CHARGER
  | GENERIC_SOURCE
  | ALTERNATOR
  | GENERIC_LOAD
  | ELECTRIC_DRIVE
  | FRIDGE
  | WATER_PUMP
  | BILGE_PUMP
  | DC_SYSTEM
  | INVERTER
  | WATER_HEATER
deriving DecidableEq

/-- `ConfiguredDevice` dataclass of `plugin.py`. -/
structure ConfiguredDevice where
  id : String
  mac : String
  advertisement_key : String
  secondary_battery : Option String
deriving DecidableEq

/-- Python `str.lower()`, character-wise (the addresses and MACs the
plugin lowercases are ASCII). -/
def pyLower (s : String) : String := ⟨s.data.map Char.toLower⟩

/-- Python truthiness of `Union[str, None]`: `None` and `""` are falsy
(the source tests `if cfg_device.secondary_battery:`). -/
def strTruthy (s : Option String) : Bool :=
  match s with
  | none => false
  | some s => !s.data.isEmpty

/-- `transformer` of `plugin.py`: prefixes each dict key with `pfx ++ "."`
and drops entries whose value is `None`. Dict iteration order is the
insertion order of the literal, as in Python. -/
def transformer (pfx : String) (data : List (String × Option SKPrim)) :
    List PathValue :=
  data.filterMap fun kv =>
    match kv.2 with
    | none => none
    | some v => some ⟨pfx ++ "." ++ kv.1, some v⟩

/-- `tempK` of `plugin.py`: Celsius to Kelvin. -/
def tempK (tempC : Option ℚ) : Option ℚ :=
  match tempC with
  | none => none
  | some c => some (c + 273.15)

/-- `power` of `plugin.py`: voltage times current, `None` if either is absent. -/
def power (voltage : Option ℚ) (current : Option ℚ) : Option ℚ :=
  match voltage, current with
  | some v, some c => some (v * c)
  | _, _ => none

/-- `percentage` of `plugin.py`. -/
def percentage (percent : Option ℚ) : Option ℚ :=
  match percent with
  | none => none
  | some p => some (p / 100)

/-- `coulomb` of `plugin.py`: amp-hours to coulombs. -/
def coulomb (ah : Option ℚ) : Option ℚ :=
  match ah with
  | none => none
  | some a => some (a * 3600)

/-- `joule` of `plugin.py`: watt-hours to joules. -/
def joule (wh : Option ℚ) : Option ℚ :=
  match wh with
  | none => none
  | some w => some (w * 3600)

/-- `seconds` of `plugin.py`: minutes to seconds. -/
def seconds (minutes : Option ℚ) : Option ℚ :=
  match minutes with
  | none => none
  | some m => some (m * 60)

/-- `lower_name` of `plugin.py`: the enum's symbolic name, lower-cased. -/
def lower_name (value : Option EnumVal) : Option String :=
  match value with
  | none => none
  | some v => some (pyLower v.name)

/-- An `AcChargerData` reading: the getters the plugin calls on it. -/
structure AcChargerData where
  charge_state : Option EnumVal
  output_current1 : Option ℚ
  output_current2 : Option ℚ
  output_current3 : Option ℚ
  output_voltage1 : Option ℚ
  output_voltage2 : Option ℚ
  output_voltage3 : Option ℚ
  temperature : Option ℚ
deriving DecidableEq

/-- A `BatteryMonitorData` reading: the getters the plugin calls on it. -/
structure BatteryMonitorData where
  consumed_ah : Option ℚ
  soc : Option ℚ
  remaining_mins : Option ℚ
  current : Option ℚ
  voltage : Option ℚ
  aux_mode : AuxMode
  starter_voltage : Option ℚ
  temperature : Option ℚ
deriving DecidableEq

/-- A `BatterySenseData` reading. -/
structure BatterySenseData where
  temperature : Option ℚ
  voltage : Option ℚ
deriving DecidableEq

/-- A `DcDcConverterData` reading. -/
structure DcDcConverterData where
  charger_error : Option EnumVal
  off_reason : Option EnumVal
  charge_state : Option EnumVal
  input_voltage : Option ℚ
  output_voltage : Option ℚ
deriving DecidableEq

/-- A `DcEnergyMeterData` reading: the getters the plugin calls on it. -/
structure DcEnergyMeterData where
  meter_type : MeterType
  current : Option ℚ
  voltage : Option ℚ
  aux_mode : AuxMode
  starter_voltage : Option ℚ
  temperature : Option ℚ
deriving DecidableEq

/-- An `InverterData` reading. -/
structure InverterData where
  ac_apparent_power : Option ℚ
  ac_current : Option ℚ
  ac_voltage : Option ℚ
  battery_voltage : Option ℚ
  device_state : Option EnumVal
deriving DecidableEq

/-- A `LynxSmartBMSData` reading: the getters the plugin calls on it.
Modelled from the spec: the auxiliary sensing channel (`aux_mode`,
`starter_voltage`) which §4.3 attributes to the LynxSmartBMS kind is part
of the reading here, since the source transformer never reads it and the
decoding library is outside this repository. -/
structure LynxSmartBMSData where
  consumed_ah : Option ℚ
  soc : Option ℚ
  remaining_mins : Option ℚ
  current : Option ℚ
  voltage : Option ℚ
  battery_temperature : Option ℚ
  aux_mode : AuxMode
  starter_voltage : Option ℚ
deriving DecidableEq

/-- An `OrionXSData` reading. -/
structure OrionXSData where
  charge_state : Option EnumVal
  charger_error : Option EnumVal
  off_reason : Option EnumVal
  input_voltage : Option ℚ
  input_current : Option ℚ
  output_voltage : Option ℚ
  output_current : Option ℚ
deriving DecidableEq

/-- A `SmartLithiumData` reading. -/
structure SmartLithiumData where
  battery_voltage : Option ℚ
  battery_temperature : Option ℚ
deriving DecidableEq

/-- A `SolarChargerData` reading. -/
structure SolarChargerData where
  charge_state : Option EnumVal
  battery_charging_current : Option ℚ
  external_device_load : Option ℚ
  solar_power : Option ℚ
  battery_voltage : Option ℚ
  yield_today : Option ℚ
deriving DecidableEq

/-- A `VEBusData` reading. -/
structure VEBusData where
  ac_out_power : Option ℚ
  battery_current : Option ℚ
  battery_temperature : Option ℚ
  battery_voltage : Option ℚ
  device_state : Option EnumVal
deriving DecidableEq

/-- `SignalKScanner.transform_ac_charger_data`. -/
def transform_ac_charger_data (cfg_device : ConfiguredDevice)
    (data : AcChargerData) (id_ : String) : List PathValue :=
  let values := transformer ("electrical.chargers." ++ id_ ++ "_1")
    [ ("chargingMode", (lower_name data.charge_state).map SKPrim.str),
      ("current", data.output_current1.map SKPrim.num),
      ("temperature", (tempK data.temperature).map SKPrim.num),
      ("voltage", data.output_voltage1.map SKPrim.num) ]
  let values := if data.output_voltage2.isSome then
      values ++ transformer ("electrical.chargers." ++ id_ ++ "_2")
        [ ("chargingMode", (lower_name data.charge_state).map SKPrim.str),
          ("current", data.output_current2.map SKPrim.num),
          ("temperature", (tempK data.temperature).map SKPrim.num),
          ("voltage", data.output_voltage2.map SKPrim.num) ]
    else values
  let values := if data.output_voltage3.isSome then
      values ++ transformer ("electrical.chargers." ++ id_ ++ "_3")
        [ ("chargingMode", (lower_name data.charge_state).map SKPrim.str),
          ("current", data.output_current3.map SKPrim.num),
          ("temperature", (tempK data.temperature).map SKPrim.num),
          ("voltage", data.output_voltage3.map SKPrim.num) ]
    else values
  values

/-- `SignalKScanner.transform_battery_sense_data`. -/
def transform_battery_sense_data (cfg_device : ConfiguredDevice)
    (data : BatterySenseData) (id_ : String) : List PathValue :=
  transformer ("electrical.batteries." ++ id_)
    [ ("temperature", (tempK data.temperature).map SKPrim.num),
      ("voltage", data.voltage.map SKPrim.num) ]

/-- `SignalKScanner.transform_battery_data`. -/
def transform_battery_data (cfg_device : ConfiguredDevice)
    (data : BatteryMonitorData) (id_ : String) : List PathValue :=
  let values := transformer ("electrical.batteries." ++ id_)
    [ ("capacity.dischargeSinceFull", (coulomb data.consumed_ah).map SKPrim.num),
      ("capacity.stateOfCharge", (percentage data.soc).map SKPrim.num),
      ("capacity.timeRemaining", (seconds data.remaining_mins).map SKPrim.num),
      ("current", data.current.map SKPrim.num),
      ("power", (power data.voltage data.current).map SKPrim.num),
      ("voltage", data.voltage.map SKPrim.num) ]
  if data.aux_mode = AuxMode.STARTER_VOLTAGE then
    if strTruthy cfg_device.secondary_battery then
      values ++
        [ ⟨"electrical.batteries." ++ cfg_device.secondary_battery.getD ("")
              ++ ".voltage",
           data.starter_voltage.map SKPrim.num⟩ ]
    else values
  else if data.aux_mode = AuxMode.TEMPERATURE then
    values ++ transformer ("electrical.batteries." ++ id_)
      [ ("temperature", (tempK data.temperature).map SKPrim.num) ]
  else values

/-- `SignalKScanner.transform_dcdc_converter_data`. -/
def transform_dcdc_converter_data (cfg_device : ConfiguredDevice)
    (data : DcDcConverterData) (id_ : String) : List PathValue :=
  transformer ("electrical.converters." ++ id_)
    [ ("chargerError", (lower_name data.charger_error).map SKPrim.str),
      ("chargerOffReason", (lower_name data.off_reason).map SKPrim.str),
      ("chargingMode", (lower_name data.charge_state).map SKPrim.str),
      ("input.voltage", data.input_voltage.map SKPrim.num),
      ("output.voltage", data.output_voltage.map SKPrim.num) ]

/-- The path prefix selection of `SignalKScanner.transform_dc_energy_meter_data`:
`prefix` starts at the batteries category and the if/elif chain on
`meter_type` overrides it. -/
def dc_meter_pfx (meter_type : MeterType) (id_ : String) : String :=
  if meter_type ∈ [MeterType.GENERIC_LOAD, MeterType.ELECTRIC_DRIVE,
      MeterType.FRIDGE, MeterType.WATER_PUMP, MeterType.BILGE_PUMP,
      MeterType.DC_SYSTEM, MeterType.WATER_HEATER] then
    "electrical.dcload." ++ id_
  else if meter_type = MeterType.SOLAR_CHARGER then
    "electrical.solar." ++ id_
  else if meter_type ∈ [MeterType.WIND_CHARGER, MeterType.SHAFT_GENERATOR,
      MeterType.FUEL_CELL, MeterType.WATER_GENERATOR, MeterType.DC_DC_CHARGER,
      MeterType.AC_CHARGER, MeterType.GENERIC_SOURCE] then
    "electrical.chargers." ++ id_
  else if meter_type = MeterType.ALTERNATOR then
    "electrical.alternators." ++ id_
  else if meter_type = MeterType.INVERTER then
    "electrical.inverters." ++ id_ ++ ".dc"
  else
    "electrical.batteries." ++ id_

/-- `SignalKScanner.transform_dc_energy_meter_data`. -/
def transform_dc_energy_meter_data (cfg_device : ConfiguredDevice)
    (data : DcEnergyMeterData) (id_ : String) : List PathValue :=
  let pfx := dc_meter_pfx data.meter_type id_
  let values := transformer pfx
    [ ("current", data.current.map SKPrim.num),
      ("power", (power data.voltage data.current).map SKPrim.num),
      ("voltage", data.voltage.map SKPrim.num) ]
  if data.aux_mode = AuxMode.STARTER_VOLTAGE then
    if strTruthy cfg_device.secondary_battery then
      values ++
        [ ⟨"electrical.batteries." ++ cfg_device.secondary_battery.getD ("")
              ++ ".voltage",
           data.starter_voltage.map SKPrim.num⟩ ]
    else values
  else if data.aux_mode = AuxMode.TEMPERATURE then
    values ++ transformer ("electrical.batteries." ++ id_)
      [ ("temperature", (tempK data.temperature).map SKPrim.num) ]
  else values

/-- `SignalKScanner.transform_inverter_data`. -/
def transform_inverter_data (cfg_device : ConfiguredDevice)
    (data : InverterData) (id_ : String) : List PathValue :=
  transformer ("electrical.inverters." ++ id_)
    [ ("ac.apparentPower", data.ac_apparent_power.map SKPrim.num),
      ("ac.current", data.ac_current.map SKPrim.num),
      ("ac.lineNeutralVoltage", data.ac_voltage.map SKPrim.num),
      ("dc.voltage", data.battery_voltage.map SKPrim.num),
      ("inverterMode", (lower_name data.device_state).map SKPrim.str) ]

/-- `SignalKScanner.transform_lynx_smart_bms_data`: note that the source
reads neither `aux_mode` nor `starter_voltage`. -/
def transform_lynx_smart_bms_data (cfg_device : ConfiguredDevice)
    (data : LynxSmartBMSData) (id_ : String) : List PathValue :=
  transformer ("electrical.batteries." ++ id_)
    [ ("capacity.dischargeSinceFull", (coulomb data.consumed_ah).map SKPrim.num),
      ("capacity.stateOfCharge", (percentage data.soc).map SKPrim.num),
      ("capacity.timeRemaining", (seconds data.remaining_mins).map SKPrim.num),
      ("current", data.current.map SKPrim.num),
      ("power", (power data.voltage data.current).map SKPrim.num),
      ("temperature", (tempK data.battery_temperature).map SKPrim.num),
      ("voltage", data.voltage.map SKPrim.num) ]

/-- `SignalKScanner.transform_orion_xs_data`. -/
def transform_orion_xs_data (cfg_device : ConfiguredDevice)
    (data : OrionXSData) (id_ : String) : List PathValue :=
  transformer ("electrical.converters." ++ id_)
    [ ("chargingMode", (lower_name data.charge_state).map SKPrim.str),
      ("chargerError", (lower_name data.charger_error).map SKPrim.str),
      ("chargerOffReason", (lower_name data.off_reason).map SKPrim.str),
      ("input.voltage", data.input_voltage.map SKPrim.num),
      ("input.current", data.input_current.map SKPrim.num),
      ("output.voltage", data.output_voltage.map SKPrim.num),
      ("output.current", data.output_current.map SKPrim.num) ]

/-- `SignalKScanner.transform_smart_lithium_data`. -/
def transform_smart_lithium_data (cfg_device : ConfiguredDevice)
    (data : SmartLithiumData) (id_ : String) : List PathValue :=
  transformer ("electrical.batteries." ++ id_)
    [ ("voltage", data.battery_voltage.map SKPrim.num),
      ("temperature", (tempK data.battery_temperature).map SKPrim.num) ]

/-- `SignalKScanner.transform_solar_charger_data`. -/
def transform_solar_charger_data (cfg_device : ConfiguredDevice)
    (data : SolarChargerData) (id_ : String) : List PathValue :=
  transformer ("electrical.solar." ++ id_)
    [ ("chargingMode", (lower_name data.charge_state).map SKPrim.str),
      ("current", data.battery_charging_current.map SKPrim.num),
      ("loadCurrent", data.external_device_load.map SKPrim.num),
      ("panelPower", data.solar_power.map SKPrim.num),
      ("voltage", data.battery_voltage.map SKPrim.num),
      ("yieldToday", (joule data.yield_today).map SKPrim.num) ]

/-- `SignalKScanner.transform_ve_bus_data`. -/
def transform_ve_bus_data (cfg_device : ConfiguredDevice)
    (data : VEBusData) (id_ : String) : List PathValue :=
  transformer ("electrical.inverters." ++ id_)
    [ ("ac.apparentPower", data.ac_out_power.map SKPrim.num),
      ("dc.current", data.battery_current.map SKPrim.num),
      ("dc.temperature", (tempK data.battery_temperature).map SKPrim.num),
      ("dc.voltage", data.battery_voltage.map SKPrim.num),
      ("inverterMode", (lower_name data.device_state).map SKPrim.str) ]

/-- The closed union of decoded readings, one variant per `DeviceData`
subclass in the dispatch table of `SignalKScanner.callback`. -/
inductive Reading
  | acCharger (d : AcChargerData)
  | batteryMonitor (d : BatteryMonitorData)
  | batterySense (d : BatterySenseData)
  | dcdcConverter (d : DcDcConverterData)
  | dcEnergyMeter (d : DcEnergyMeterData)
  | inverter (d : InverterData)
  | lynxSmartBMS (d : LynxSmartBMSData)
  | orionXS (d : OrionXSData)
  | smartLithium (d : SmartLithiumData)
  | solarCharger (d : SolarChargerData)
  | veBus (d : VEBusData)
deriving DecidableEq

/-- The dispatch table of `SignalKScanner.callback`: the `isinstance`
chain selects the transformer matching the reading's runtime type. -/
def transform (cfg_device : ConfiguredDevice) (r : Reading) (id_ : String) :
    List PathValue :=
  match r with
  | .acCharger d => transform_ac_charger_data cfg_device d id_
  | .batteryMonitor d => transform_battery_data cfg_device d id_
  | .batterySense d => transform_battery_sense_data cfg_device d id_
  | .dcdcConverter d => transform_dcdc_converter_data cfg_device d id_
  | .dcEnergyMeter d => transform_dc_energy_meter_data cfg_device d id_
  | .inverter d => transform_inverter_data cfg_device d id_
  | .lynxSmartBMS d => transform_lynx_smart_bms_data cfg_device d id_
  | .orionXS d => transform_orion_xs_data cfg_device d id_
  | .smartLithium d => transform_smart_lithium_data cfg_device d id_
  | .solarCharger d => transform_solar_charger_data cfg_device d id_
  | .veBus d => transform_ve_bus_data cfg_device d id_

/-- The `source` object of an emitted delta. -/
structure DeltaSource where
  label : String
  type : String
  src : String
deriving DecidableEq

/-- One element of the `updates` list of an emitted delta. -/
structure DeltaUpdate where
  source : DeltaSource
  timestamp : String
  values : List PathValue
deriving DecidableEq

/-- The delta envelope written to stdout (`SignalKDelta`). -/
structure SignalKDelta where
  updates : List DeltaUpdate
deriving DecidableEq

/-- `SignalKScanner.prepare_signalk_delta`. The wall clock is explicit:
`now_iso` is the string `datetime.datetime.utcnow().isoformat()` returns
at assembly time; the source appends the literal `"Z"` to it. -/
def prepare_signalk_delta (address : String) (now_iso : String)
    (values : List PathValue) : SignalKDelta :=
  { updates :=
      [ { source := { label := "Victron", type := "Bluetooth", src := address },
          timestamp := now_iso ++ "Z",
          values := values } ] }

/-- One raw config entry of the startup JSON (`config["devices"]`). -/
structure ConfigEntry where
  mac : String
  id : String
  key : String
  secondary_battery : Option String
deriving DecidableEq

/-- The registry `main` builds: a Python dict keyed by `device["mac"].lower()`.
Represented as the insertion sequence of key/value pairs. -/
def build_registry (devs : List ConfigEntry) : List (String × ConfiguredDevice) :=
  devs.map fun d =>
    (pyLower d.mac,
     { id := d.id, mac := d.mac, advertisement_key := d.key,
       secondary_battery := d.secondary_battery })

/-- Lookup in the registry with Python dict semantics: a later insertion
of the same key overwrites an earlier one. -/
def dictLookup (l : List (String × ConfiguredDevice)) (k : String) :
    Option ConfiguredDevice :=
  match l with
  | [] => none
  | (k2, v) :: rest =>
    match dictLookup rest k with
    | some r => some r
    | none => if k2 = k then some v else none

/-- `SignalKScanner.load_key`: looks the address up verbatim (no case
normalization of its own) and raises `AdvertisementKeyMissingError` when
absent, modelled as `Except.error`. -/
def load_key (devices : List (String × ConfiguredDevice)) (address : String) :
    Except String String :=
  match dictLookup devices address with
  | some cfg => Except.ok cfg.advertisement_key
  | none => Except.error ("No key available for " ++ address)

/-- Modelled from the spec: the scanning library (an external collaborator,
not in this repository) is the only caller of `load_key`, and per §4.1 every
caller normalizes the transport address to lowercase before the lookup. -/
def load_key_via_scanner (devices : List (String × ConfiguredDevice))
    (address : String) : Except String String :=
  load_key devices (pyLower address)

/-- Outcome of `SignalKScanner.get_device` for one frame, as the external
decoding library reports it: a detected device, a missing advertisement
key, or an unknown device type. -/
inductive GetDeviceResult
  | ok
  | advertisementKeyMissing
  | unknownDevice (msg : String)
deriving DecidableEq

/-- One received frame, carrying the outcomes the external decoding
library produces for it: the `get_device` outcome and, once a device is
detected, the outcome of `device.parse(raw_data)` (`Except.error` models
an exception raised while parsing). -/
structure Frame where
  address : String
  get_device_result : GetDeviceResult
  parse_result : Except String Reading

/-- What one `SignalKScanner.callback` invocation did with a frame. -/
inductive CallbackOutcome
  | emitted (delta : SignalKDelta)
  | droppedSilently
  | droppedLogged (msg : String)
deriving DecidableEq

/-- `SignalKScanner.callback`. `Except.error` at the top level models an
exception propagating out of the callback: the source wraps only
`get_device` in try/except, while `device.parse(raw_data)` and the
registry subscript run outside it. -/
def callback (devices : List (String × ConfiguredDevice)) (f : Frame)
    (now_iso : String) : Except String CallbackOutcome :=
  match f.get_device_result with
  | .advertisementKeyMissing => Except.ok CallbackOutcome.droppedSilently
  | .unknownDevice m => Except.ok (CallbackOutcome.droppedLogged m)
  | .ok =>
    match f.parse_result with
    | .error e => Except.error e
    | .ok data =>
      match dictLookup devices (pyLower f.address) with
      | none => Except.error ("KeyError: " ++ pyLower f.address)
      | some configured_device =>
        let id_ := configured_device.id
        let values := transform configured_device data id_
        Except.ok (CallbackOutcome.emitted
          (prepare_signalk_delta f.address now_iso values))

/-! ### Shared lemmas about the embedded definitions -/

/-- Characterization of `transformer` membership: every emitted entry
comes from a present (`some`) dict value. -/
theorem transformer_mem {pfx : String} {data : List (String × Option SKPrim)}
    {pv : PathValue} (h : pv ∈ transformer pfx data) :
    ∃ k v, (k, some v) ∈ data ∧ pv = ⟨pfx ++ "." ++ k, some v⟩ := by
  simp only [transformer, List.mem_filterMap] at h
  obtain ⟨⟨k, ov⟩, hmem, hf⟩ := h
  cases ov with
  | none => simp at hf
  | some v =>
    refine ⟨k, v, hmem, ?_⟩
    simpa using hf.symm

/-- Introduction rule for `transformer` membership. -/
theorem mem_transformer_of {pfx k : String} {v : SKPrim}
    {data : List (String × Option SKPrim)} (h : (k, some v) ∈ data) :
    (⟨pfx ++ "." ++ k, some v⟩ : PathValue) ∈ transformer pfx data := by
  simp only [transformer, List.mem_filterMap]
  exact ⟨(k, some v), h, rfl⟩

/-- `transformer` never emits a null value. -/
theorem transformer_value_ne_none {pfx : String}
    {data : List (String × Option SKPrim)} {pv : PathValue}
    (h : pv ∈ transformer pfx data) : pv.value ≠ none := by
  obtain ⟨k, v, -, rfl⟩ := transformer_mem h
  simp

/-- The base block of `transform_battery_data`, before the auxiliary remap. -/
def battery_base (data : BatteryMonitorData) (id_ : String) : List PathValue :=
  transformer ("electrical.batteries." ++ id_)
    [ ("capacity.dischargeSinceFull", (coulomb data.consumed_ah).map SKPrim.num),
      ("capacity.stateOfCharge", (percentage data.soc).map SKPrim.num),
      ("capacity.timeRemaining", (seconds data.remaining_mins).map SKPrim.num),
      ("current", data.current.map SKPrim.num),
      ("power", (power data.voltage data.current).map SKPrim.num),
      ("voltage", data.voltage.map SKPrim.num) ]

/-- The base block of `transform_dc_energy_meter_data`, before the
auxiliary remap. -/
def dc_meter_base (data : DcEnergyMeterData) (id_ : String) : List PathValue :=
  transformer (dc_meter_pfx data.meter_type id_)
    [ ("current", data.current.map SKPrim.num),
      ("power", (power data.voltage data.current).map SKPrim.num),
      ("voltage", data.voltage.map SKPrim.num) ]

/-- The auxiliary-channel tail of `transform_battery_data` and
`transform_dc_energy_meter_data`: what the remap appends after the base
block. -/
def aux_tail (cfg_device : ConfiguredDevice) (aux_mode : AuxMode)
    (starter_voltage : Option ℚ) (temperature : Option ℚ) (id_ : String) :
    List PathValue :=
  if aux_mode = AuxMode.STARTER_VOLTAGE then
    if strTruthy cfg_device.secondary_battery then
      [ ⟨"electrical.batteries." ++ cfg_device.secondary_battery.getD ("")
            ++ ".voltage",
         starter_voltage.map SKPrim.num⟩ ]
    else []
  else if aux_mode = AuxMode.TEMPERATURE then
    transformer ("electrical.batteries." ++ id_)
      [ ("temperature", (tempK temperature).map SKPrim.num) ]
  else []

/-- `transform_battery_data` decomposes as base block plus auxiliary tail. -/
theorem transform_battery_data_eq (cfg_device : ConfiguredDevice)
    (data : BatteryMonitorData) (id_ : String) :
    transform_battery_data cfg_device data id_ =
      battery_base data id_ ++
        aux_tail cfg_device data.aux_mode data.starter_voltage
          data.temperature id_ := by
  simp only [transform_battery_data, battery_base, aux_tail]
  split
  · split
    · rfl
    · simp
  · split
    · rfl
    · simp

/-- `transform_dc_energy_meter_data` decomposes as base block plus
auxiliary tail. -/
theorem transform_dc_energy_meter_data_eq (cfg_device : ConfiguredDevice)
    (data : DcEnergyMeterData) (id_ : String) :
    transform_dc_energy_meter_data cfg_device data id_ =
      dc_meter_base data id_ ++
        aux_tail cfg_device data.aux_mode data.starter_voltage
          data.temperature id_ := by
  simp only [transform_dc_energy_meter_data, dc_meter_base, aux_tail]
  split
  · split
    · rfl
    · simp
  · split
    · rfl
    · simp

/-- Appending preserves having `"electrical."` as a leading segment. -/
theorem epath_append {x : String} (y : String)
    (h : ∃ s, x = "electrical." ++ s) :
    ∃ s, x ++ y = "electrical." ++ s := by
  obtain ⟨s, rfl⟩ := h
  exact ⟨s ++ y, (String.append_assoc _ _ _)⟩

/-- Members of a `transformer` block whose prefix leads with
`"electrical."` have paths leading with `"electrical."`. -/
theorem epath_of_mem_transformer {pfx : String}
    {data : List (String × Option SKPrim)} {pv : PathValue}
    (hp : ∃ s, pfx = "electrical." ++ s) (h : pv ∈ transformer pfx data) :
    ∃ t, pv.path = "electrical." ++ t := by
  obtain ⟨k, v, -, rfl⟩ := transformer_mem h
  exact epath_append _ (epath_append _ hp)

/-- Every category prefix of the DC energy meter table leads with
`"electrical."`. -/
theorem dc_meter_pfx_epath (meter_type : MeterType) (id_ : String) :
    ∃ s, dc_meter_pfx meter_type id_ = "electrical." ++ s := by
  cases meter_type <;>
    first
      | exact epath_append id_ ⟨"dcload.", rfl⟩
      | exact epath_append id_ ⟨"solar.", rfl⟩
      | exact epath_append id_ ⟨"chargers.", rfl⟩
      | exact epath_append id_ ⟨"alternators.", rfl⟩
      | exact epath_append (".dc") (epath_append id_ ⟨"inverters.", rfl⟩)

/-- If a key occurs in the registry list, `dictLookup` finds an entry. -/
theorem dictLookup_isSome_of_mem {l : List (String × ConfiguredDevice)}
    {k : String} {v : ConfiguredDevice} (h : (k, v) ∈ l) :
    ∃ c, dictLookup l k = some c := by
  induction l with
  | nil => simp at h
  | cons kv rest ih =>
    obtain ⟨k2, v2⟩ := kv
    rcases List.mem_cons.1 h with h1 | h2
    · cases hrest : dictLookup rest k with
      | some r => exact ⟨r, by simp [dictLookup, hrest]⟩
      | none =>
        refine ⟨v2, ?_⟩
        have hk : k2 = k := (congrArg Prod.fst h1).symm
        simp [dictLookup, hrest, hk]
    · obtain ⟨c, hc⟩ := ih h2
      exact ⟨c, by simp [dictLookup, hc]⟩

/-! ### Concrete fixtures for the end-to-end battery-monitor scenario -/

/-- The registry entry of the end-to-end scenario in §8 of the spec. -/
def cfgHouse : ConfiguredDevice :=
  { id := "house", mac := "aa:bb:cc:dd:ee:ff", advertisement_key := "K",
    secondary_battery := none }

/-- The decoded BatteryMonitor reading of the end-to-end scenario. -/
def readingHouse : BatteryMonitorData :=
  { consumed_ah := some 10, soc := some 87.5, remaining_mins := some 240,
    current := some (-3.2), voltage := some 12.6,
    aux_mode := AuxMode.DISABLED, starter_voltage := none,
    temperature := none }

/-- C4 counterexample: on the scenario input, the transformer's output is
NOT the claimed sequence — the claim lists the correct six PathValues but
in the wrong order (the source dict starts with the capacity fields, not
with voltage). -/
theorem c4_counterexample :
    transform_battery_data cfgHouse readingHouse ("house") ≠
      [ ⟨"electrical.batteries.house.voltage", some (SKPrim.num 12.6)⟩,
        ⟨"electrical.batteries.house.current", some (SKPrim.num (-3.2))⟩,
        ⟨"electrical.batteries.house.power", some (SKPrim.num (-40.32))⟩,
        ⟨"electrical.batteries.house.capacity.stateOfCharge",
          some (SKPrim.num 0.875)⟩,
        ⟨"electrical.batteries.house.capacity.dischargeSinceFull",
          some (SKPrim.num 36000)⟩,
        ⟨"electrical.batteries.house.capacity.timeRemaining",
          some (SKPrim.num 14400)⟩ ] := by
  have hact : transform_battery_data cfgHouse readingHouse ("house") =
      [ ⟨"electrical.batteries.house.capacity.dischargeSinceFull",
          some (SKPrim.num 36000)⟩,
        ⟨"electrical.batteries.house.capacity.stateOfCharge",
          some (SKPrim.num 0.875)⟩,
        ⟨"electrical.batteries.house.capacity.timeRemaining",
          some (SKPrim.num 14400)⟩,
        ⟨"electrical.batteries.house.current", some (SKPrim.num (-3.2))⟩,
        ⟨"electrical.batteries.house.power", some (SKPrim.num (-40.32))⟩,
        ⟨"electrical.batteries.house.voltage", some (SKPrim.num 12.6)⟩ ] := by
    simp [transform_battery_data, transformer, cfgHouse, readingHouse,
      coulomb, percentage, seconds, power, strTruthy]
    norm_num
  rw [hact]
  decide

/-- C4 amended: on the scenario input the output holds exactly the six
claimed PathValues with the claimed values — voltage 12.6, current -3.2,
power -40.32, stateOfCharge 0.875, dischargeSinceFull 36000, timeRemaining
14400, no temperature and no secondary-battery entry — but in the source's
dict order: dischargeSinceFull, stateOfCharge, timeRemaining, current,
power, voltage. -/
theorem c4_scenario_amended :
    transform_battery_data cfgHouse readingHouse ("house") =
      [ ⟨"electrical.batteries.house.capacity.dischargeSinceFull",
          some (SKPrim.num 36000)⟩,
        ⟨"electrical.batteries.house.capacity.stateOfCharge",
          some (SKPrim.num 0.875)⟩,
        ⟨"electrical.batteries.house.capacity.timeRemaining",
          some (SKPrim.num 14400)⟩,
        ⟨"electrical.batteries.house.current", some (SKPrim.num (-3.2))⟩,
        ⟨"electrical.batteries.house.power", some (SKPrim.num (-40.32))⟩,
        ⟨"electrical.batteries.house.voltage", some (SKPrim.num 12.6)⟩ ] := by
  simp [transform_battery_data, transformer, cfgHouse, readingHouse,
    coulomb, percentage, seconds, power, strTruthy]
  norm_num

/-- C9: every assembled delta has exactly the claimed envelope — a single
update with fixed source label `"Victron"`, transport type `"Bluetooth"`,
the device address as `src`, the assembly-time clock rendering with a
literal `"Z"` appended, and the transformed values. -/
theorem c9_delta_envelope (address now_iso : String)
    (values : List PathValue) :
    prepare_signalk_delta address now_iso values =
      { updates :=
          [ { source :=
                { label := "Victron", type := "Bluetooth", src := address },
              timestamp := now_iso ++ "Z",
              values := values } ] } := rfl

/-- C8: the AcCharger transformer always emits the phase-1 block, and
emits the separately-prefixed phase-2 (resp. phase-3) block exactly when
that phase's output voltage is present; a present phase voltage always
appears in its block. -/
theorem c8_phase_blocks (cfg_device : ConfiguredDevice)
    (data : AcChargerData) (id_ : String) :
    (transform_ac_charger_data cfg_device data id_ =
      transformer ("electrical.chargers." ++ id_ ++ "_1")
        [ ("chargingMode", (lower_name data.charge_state).map SKPrim.str),
          ("current", data.output_current1.map SKPrim.num),
          ("temperature", (tempK data.temperature).map SKPrim.num),
          ("voltage", data.output_voltage1.map SKPrim.num) ]
      ++ (if data.output_voltage2.isSome then
            transformer ("electrical.chargers." ++ id_ ++ "_2")
              [ ("chargingMode", (lower_name data.charge_state).map SKPrim.str),
                ("current", data.output_current2.map SKPrim.num),
                ("temperature", (tempK data.temperature).map SKPrim.num),
                ("voltage", data.output_voltage2.map SKPrim.num) ]
          else [])
      ++ (if data.output_voltage3.isSome then
            transformer ("electrical.chargers." ++ id_ ++ "_3")
              [ ("chargingMode", (lower_name data.charge_state).map SKPrim.str),
                ("current", data.output_current3.map SKPrim.num),
                ("temperature", (tempK data.temperature).map SKPrim.num),
                ("voltage", data.output_voltage3.map SKPrim.num) ]
          else []))
    ∧ (∀ v : ℚ, data.output_voltage2 = some v →
        (⟨"electrical.chargers." ++ id_ ++ "_2" ++ "." ++ "voltage",
            some (SKPrim.num v)⟩ : PathValue)
          ∈ transform_ac_charger_data cfg_device data id_)
    ∧ (∀ v : ℚ, data.output_voltage3 = some v →
        (⟨"electrical.chargers." ++ id_ ++ "_3" ++ "." ++ "voltage",
            some (SKPrim.num v)⟩ : PathValue)
          ∈ transform_ac_charger_data cfg_device data id_) := by
  have hstruct : transform_ac_charger_data cfg_device data id_ =
      transformer ("electrical.chargers." ++ id_ ++ "_1")
        [ ("chargingMode", (lower_name data.charge_state).map SKPrim.str),
          ("current", data.output_current1.map SKPrim.num),
          ("temperature", (tempK data.temperature).map SKPrim.num),
          ("voltage", data.output_voltage1.map SKPrim.num) ]
      ++ (if data.output_voltage2.isSome then
            transformer ("electrical.chargers." ++ id_ ++ "_2")
              [ ("chargingMode", (lower_name data.charge_state).map SKPrim.str),
                ("current", data.output_current2.map SKPrim.num),
                ("temperature", (tempK data.temperature).map SKPrim.num),
                ("voltage", data.output_voltage2.map SKPrim.num) ]
          else [])
      ++ (if data.output_voltage3.isSome then
            transformer ("electrical.chargers." ++ id_ ++ "_3")
              [ ("chargingMode", (lower_name data.charge_state).map SKPrim.str),
                ("current", data.output_current3.map SKPrim.num),
                ("temperature", (tempK data.temperature).map SKPrim.num),
                ("voltage", data.output_voltage3.map SKPrim.num) ]
          else []) := by
    simp only [transform_ac_charger_data]
    cases h2 : data.output_voltage2.isSome <;>
      cases h3 : data.output_voltage3.isSome <;>
        simp [h2, h3, List.append_assoc]
  refine ⟨hstruct, ?_, ?_⟩
  · intro v hv
    rw [hstruct]
    have h2 : data.output_voltage2.isSome = true := by simp [hv]
    refine List.mem_append_left _ (List.mem_append_right _ ?_)
    rw [if_pos h2]
    exact mem_transformer_of (by simp [hv])
  · intro v hv
    rw [hstruct]
    have h3 : data.output_voltage3.isSome = true := by simp [hv]
    refine List.mem_append_right _ ?_
    rw [if_pos h3]
    exact mem_transformer_of (by simp [hv])

/-- Configured device fixture for the C8 witness. -/
def c8cfg : ConfiguredDevice :=
  { id := "ac", mac := "11:22:33:44:55:66", advertisement_key := "k8",
    secondary_battery := none }

/-- AcCharger fixture for the C8 witness: phase-2 voltage present. -/
def c8data : AcChargerData :=
  { charge_state := none, output_current1 := some 5, output_current2 := some 4,
    output_current3 := none, output_voltage1 := some 230,
    output_voltage2 := some 231, output_voltage3 := none,
    temperature := none }

/-- C8 witness: at a concrete AcCharger reading with phase-2 voltage 231,
the phase-2 voltage PathValue is in the output. -/
theorem c8_witness :
    (⟨"electrical.chargers." ++ "ac" ++ "_2" ++ "." ++ "voltage",
        some (SKPrim.num 231)⟩ : PathValue)
      ∈ transform_ac_charger_data c8cfg c8data ("ac") :=
  (c8_phase_blocks c8cfg c8data ("ac")).2.1 231 rfl

/-- Every element of the AcCharger output lies in one of the three phase
blocks. -/
theorem transform_ac_charger_mem_block {cfg_device : ConfiguredDevice}
    {data : AcChargerData} {id_ : String} {pv : PathValue}
    (hm : pv ∈ transform_ac_charger_data cfg_device data id_) :
    ∃ (n : String) (entries : List (String × Option SKPrim)),
      (n = "_1" ∨ n = "_2" ∨ n = "_3") ∧
      pv ∈ transformer ("electrical.chargers." ++ id_ ++ n) entries := by
  simp only [transform_ac_charger_data] at hm
  split at hm
  · rcases List.mem_append.1 hm with hm12 | hm3
    · split at hm12
      · rcases List.mem_append.1 hm12 with hm1 | hm2
        · exact ⟨"_1", _, Or.inl rfl, hm1⟩
        · exact ⟨"_2", _, Or.inr (Or.inl rfl), hm2⟩
      · exact ⟨"_1", _, Or.inl rfl, hm12⟩
    · exact ⟨"_3", _, Or.inr (Or.inr rfl), hm3⟩
  · split at hm
    · rcases List.mem_append.1 hm with hm1 | hm2
      · exact ⟨"_1", _, Or.inl rfl, hm1⟩
      · exact ⟨"_2", _, Or.inr (Or.inl rfl), hm2⟩
    · exact ⟨"_1", _, Or.inl rfl, hm⟩

/-- The auxiliary tail never carries a null value, provided the starter
voltage is present whenever the starter branch fires. -/
theorem aux_tail_value_ne_none {cfg_device : ConfiguredDevice}
    {aux : AuxMode} {sv t : Option ℚ} {id_ : String} {pv : PathValue}
    (hp : aux = AuxMode.STARTER_VOLTAGE → sv.isSome = true)
    (hm : pv ∈ aux_tail cfg_device aux sv t id_) : pv.value ≠ none := by
  unfold aux_tail at hm
  by_cases h1 : aux = AuxMode.STARTER_VOLTAGE
  · rw [if_pos h1] at hm
    by_cases h2 : strTruthy cfg_device.secondary_battery
    · rw [if_pos h2] at hm
      simp only [List.mem_singleton] at hm
      subst hm
      obtain ⟨v, hv⟩ := Option.isSome_iff_exists.1 (hp h1)
      simp [hv]
    · rw [if_neg h2] at hm
      simp at hm
  · rw [if_neg h1] at hm
    by_cases h3 : aux = AuxMode.TEMPERATURE
    · rw [if_pos h3] at hm
      exact transformer_value_ne_none hm
    · rw [if_neg h3] at hm
      simp at hm

/-- Whether the starter-voltage reading is present whenever the
auxiliary starter branch of a transformer would fire. -/
def starter_value_present : Reading → Bool
  | .batteryMonitor d =>
    if d.aux_mode = AuxMode.STARTER_VOLTAGE then d.starter_voltage.isSome
    else true
  | .dcEnergyMeter d =>
    if d.aux_mode = AuxMode.STARTER_VOLTAGE then d.starter_voltage.isSome
    else true
  | _ => true

/-- Configured device fixture for the C1 counterexample: secondary
battery `"aux"` declared. -/
def c1cfg : ConfiguredDevice :=
  { id := "main", mac := "aa:aa:aa:aa:aa:aa", advertisement_key := "k1",
    secondary_battery := some ("aux") }

/-- BatteryMonitor fixture for the C1 counterexample: auxiliary mode is
starter voltage but the starter-voltage reading itself is absent. -/
def c1data : BatteryMonitorData :=
  { consumed_ah := none, soc := none, remaining_mins := none,
    current := none, voltage := none,
    aux_mode := AuxMode.STARTER_VOLTAGE, starter_voltage := none,
    temperature := none }

/-- C1 counterexample: with auxiliary mode = starter voltage, a declared
secondary battery and an absent starter-voltage reading, the output DOES
contain a PathValue with a null value — the starter-voltage append is not
filtered. -/
theorem c1_counterexample :
    ¬ (∀ pv ∈ transform c1cfg (Reading.batteryMonitor c1data) ("main"),
        pv.value ≠ none) := by
  intro h
  refine h ⟨"electrical.batteries.aux.voltage", none⟩ ?_ rfl
  simp [transform, transform_battery_data, transformer, strTruthy,
    c1cfg, c1data, coulomb, percentage, seconds, power]

/-- C1 amended: every PathValue built through `transformer` drops absent
values, so no null is ever emitted — except that the starter-voltage
PathValue appended by the auxiliary remap is emitted unconditionally;
whenever the starter-voltage reading is present if that branch fires, the
whole output is null-free. -/
theorem c1_no_nulls_amended (cfg_device : ConfiguredDevice) (r : Reading)
    (id_ : String) (h : starter_value_present r = true) :
    ∀ pv ∈ transform cfg_device r id_, pv.value ≠ none := by
  intro pv hm
  cases r with
  | acCharger d =>
    simp only [transform] at hm
    obtain ⟨n, entries, -, hmem⟩ := transform_ac_charger_mem_block hm
    exact transformer_value_ne_none hmem
  | batteryMonitor d =>
    simp only [transform] at hm
    rw [transform_battery_data_eq] at hm
    rcases List.mem_append.1 hm with hb | ht
    · exact transformer_value_ne_none hb
    · refine aux_tail_value_ne_none ?_ ht
      intro haux
      simpa [starter_value_present, haux] using h
  | batterySense d => exact transformer_value_ne_none hm
  | dcdcConverter d => exact transformer_value_ne_none hm
  | dcEnergyMeter d =>
    simp only [transform] at hm
    rw [transform_dc_energy_meter_data_eq] at hm
    rcases List.mem_append.1 hm with hb | ht
    · exact transformer_value_ne_none hb
    · refine aux_tail_value_ne_none ?_ ht
      intro haux
      simpa [starter_value_present, haux] using h
  | inverter d => exact transformer_value_ne_none hm
  | lynxSmartBMS d => exact transformer_value_ne_none hm
  | orionXS d => exact transformer_value_ne_none hm
  | smartLithium d => exact transformer_value_ne_none hm
  | solarCharger d => exact transformer_value_ne_none hm
  | veBus d => exact transformer_value_ne_none hm

/-- BatteryMonitor fixture for the C1 witness: starter branch fires and
the starter voltage is present. -/
def c1wdata : BatteryMonitorData :=
  { consumed_ah := none, soc := none, remaining_mins := none,
    current := none, voltage := some 12,
    aux_mode := AuxMode.STARTER_VOLTAGE, starter_voltage := some 12.8,
    temperature := none }

/-- C1 witness: the amended theorem applied at a concrete reading whose
starter voltage is present — the emitted secondary PathValue is not null. -/
theorem c1_witness :
    starter_value_present (Reading.batteryMonitor c1wdata) = true ∧
    (⟨"electrical.batteries.aux.voltage", some (SKPrim.num 12.8)⟩ :
        PathValue).value ≠ none :=
  ⟨rfl,
   c1_no_nulls_amended c1cfg (Reading.batteryMonitor c1wdata) ("main") rfl
     ⟨"electrical.batteries.aux.voltage", some (SKPrim.num 12.8)⟩
     (by
        simp [transform, transform_battery_data, transformer, strTruthy,
          c1cfg, c1wdata, coulomb, percentage, seconds, power])⟩

/-- Configured device fixture for the C2 counterexample: secondary
battery `"aux2"` declared. -/
def c2cfg : ConfiguredDevice :=
  { id := "b", mac := "bb:bb:bb:bb:bb:bb", advertisement_key := "k2",
    secondary_battery := some ("aux2") }

/-- LynxSmartBMS fixture for the C2 counterexample: auxiliary mode is
starter voltage and the starter voltage is present. -/
def c2data : LynxSmartBMSData :=
  { consumed_ah := none, soc := none, remaining_mins := none,
    current := some 2, voltage := some 13, battery_temperature := none,
    aux_mode := AuxMode.STARTER_VOLTAGE, starter_voltage := some 12.5 }

/-- C2 counterexample: a LynxSmartBMS reading with auxiliary mode =
starter voltage and a declared secondary battery emits NO extra PathValue
under the secondary device's voltage path — the LynxSmartBMS transformer
has no auxiliary-channel remap at all. -/
theorem c2_counterexample :
    transform c2cfg (Reading.lynxSmartBMS c2data) ("b") =
      [ ⟨"electrical.batteries.b.current", some (SKPrim.num 2)⟩,
        ⟨"electrical.batteries.b.power", some (SKPrim.num 26)⟩,
        ⟨"electrical.batteries.b.voltage", some (SKPrim.num 13)⟩ ] ∧
    "electrical.batteries.aux2.voltage" ∉
      (transform c2cfg (Reading.lynxSmartBMS c2data) ("b")).map
        PathValue.path := by
  have h : transform c2cfg (Reading.lynxSmartBMS c2data) ("b") =
      [ ⟨"electrical.batteries.b.current", some (SKPrim.num 2)⟩,
        ⟨"electrical.batteries.b.power", some (SKPrim.num 26)⟩,
        ⟨"electrical.batteries.b.voltage", some (SKPrim.num 13)⟩ ] := by
    simp [transform, transform_lynx_smart_bms_data, transformer, c2data,
      coulomb, percentage, seconds, power, tempK]
    norm_num
  refine ⟨h, ?_⟩
  rw [h]
  decide

/-- C2 amended: the auxiliary-channel remap holds for BatteryMonitor and
DcEnergyMeter exactly as claimed — starter-voltage mode with a declared
secondary battery appends exactly one PathValue under the secondary
voltage path (and the base block has no temperature entry), temperature
mode appends the temperature (when present) under the primary batteries
path and nothing secondary, and the branches are mutually exclusive on the
auxiliary-mode enum — but the LynxSmartBMS transformer has no remap: its
output is the fixed base block, independent of the auxiliary channel. -/
theorem c2_aux_remap_amended (cfg_device : ConfiguredDevice)
    (id_ b : String) (hb : cfg_device.secondary_battery = some b)
    (hbt : strTruthy cfg_device.secondary_battery = true) :
    (∀ d : BatteryMonitorData, d.aux_mode = AuxMode.STARTER_VOLTAGE →
      transform_battery_data cfg_device d id_ =
        battery_base d id_ ++
          [ ⟨"electrical.batteries." ++ b ++ ".voltage",
             d.starter_voltage.map SKPrim.num⟩ ]) ∧
    (∀ d : BatteryMonitorData, d.aux_mode = AuxMode.TEMPERATURE →
      transform_battery_data cfg_device d id_ =
        battery_base d id_ ++
          transformer ("electrical.batteries." ++ id_)
            [ ("temperature", (tempK d.temperature).map SKPrim.num) ]) ∧
    (∀ d : DcEnergyMeterData, d.aux_mode = AuxMode.STARTER_VOLTAGE →
      transform_dc_energy_meter_data cfg_device d id_ =
        dc_meter_base d id_ ++
          [ ⟨"electrical.batteries." ++ b ++ ".voltage",
             d.starter_voltage.map SKPrim.num⟩ ]) ∧
    (∀ d : DcEnergyMeterData, d.aux_mode = AuxMode.TEMPERATURE →
      transform_dc_energy_meter_data cfg_device d id_ =
        dc_meter_base d id_ ++
          transformer ("electrical.batteries." ++ id_)
            [ ("temperature", (tempK d.temperature).map SKPrim.num) ]) ∧
    (∀ d : LynxSmartBMSData,
      transform_lynx_smart_bms_data cfg_device d id_ =
        transform_lynx_smart_bms_data cfg_device
          { d with aux_mode := AuxMode.DISABLED, starter_voltage := none }
          id_) := by
  refine ⟨?_, ?_, ?_, ?_, fun d => rfl⟩
  · intro d haux
    rw [transform_battery_data_eq]
    congr 1
    unfold aux_tail
    rw [if_pos haux, if_pos hbt]
    simp [hb]
  · intro d haux
    rw [transform_battery_data_eq]
    congr 1
    unfold aux_tail
    rw [haux]
    simp
  · intro d haux
    rw [transform_dc_energy_meter_data_eq]
    congr 1
    unfold aux_tail
    rw [if_pos haux, if_pos hbt]
    simp [hb]
  · intro d haux
    rw [transform_dc_energy_meter_data_eq]
    congr 1
    unfold aux_tail
    rw [haux]
    simp

/-- Configured device fixture for the C2 witness. -/
def c2wcfg : ConfiguredDevice :=
  { id := "m", mac := "cc:cc:cc:cc:cc:cc", advertisement_key := "k2w",
    secondary_battery := some ("s2") }

/-- BatteryMonitor fixture for the C2 witness. -/
def c2wdata : BatteryMonitorData :=
  { consumed_ah := none, soc := none, remaining_mins := none,
    current := none, voltage := some 12,
    aux_mode := AuxMode.STARTER_VOLTAGE, starter_voltage := some 12.7,
    temperature := none }

/-- C2 witness: the amended remap theorem applied to a concrete
BatteryMonitor reading in starter-voltage mode. -/
theorem c2_witness :
    transform_battery_data c2wcfg c2wdata ("m") =
      battery_base c2wdata ("m") ++
        [ ⟨"electrical.batteries." ++ "s2" ++ ".voltage",
           c2wdata.starter_voltage.map SKPrim.num⟩ ] :=
  (c2_aux_remap_amended c2wcfg ("m") ("s2") rfl rfl).1 c2wdata rfl

/-- C3 counterexample: for a GENERIC_LOAD meter the selected category
prefix is `electrical.dcload.<id>`, yet the auxiliary temperature
PathValue of the same frame is emitted under `electrical.batteries.<id>`,
which does not extend the selected prefix. -/
theorem c3_counterexample :
    dc_meter_pfx MeterType.GENERIC_LOAD ("m") = "electrical.dcload.m" ∧
    (⟨"electrical.batteries.m.temperature", some (SKPrim.num 293.15)⟩ :
        PathValue) ∈
      transform_dc_energy_meter_data c2wcfg
        { meter_type := MeterType.GENERIC_LOAD, current := some 2,
          voltage := some 13, aux_mode := AuxMode.TEMPERATURE,
          starter_voltage := none, temperature := some 20 } ("m") ∧
    ("electrical.dcload.m").data.isPrefixOf
      ("electrical.batteries.m.temperature").data = false := by
  refine ⟨rfl, ?_, by decide⟩
  simp [transform_dc_energy_meter_data, dc_meter_pfx, transformer, power,
    tempK, strTruthy, c2wcfg]
  norm_num

/-- C3 amended: the category table maps each meter type exactly as
claimed, and the selected prefix governs the current/power/voltage block
of the frame; the auxiliary-channel PathValues however use the batteries
category (`aux_tail`), not the selected prefix. -/
theorem c3_meter_prefix_amended :
    (∀ id_ : String,
      dc_meter_pfx MeterType.GENERIC_LOAD id_ = "electrical.dcload." ++ id_ ∧
      dc_meter_pfx MeterType.ELECTRIC_DRIVE id_ = "electrical.dcload." ++ id_ ∧
      dc_meter_pfx MeterType.FRIDGE id_ = "electrical.dcload." ++ id_ ∧
      dc_meter_pfx MeterType.WATER_PUMP id_ = "electrical.dcload." ++ id_ ∧
      dc_meter_pfx MeterType.BILGE_PUMP id_ = "electrical.dcload." ++ id_ ∧
      dc_meter_pfx MeterType.DC_SYSTEM id_ = "electrical.dcload." ++ id_ ∧
      dc_meter_pfx MeterType.WATER_HEATER id_ = "electrical.dcload." ++ id_ ∧
      dc_meter_pfx MeterType.SOLAR_CHARGER id_ = "electrical.solar." ++ id_ ∧
      dc_meter_pfx MeterType.WIND_CHARGER id_ = "electrical.chargers." ++ id_ ∧
      dc_meter_pfx MeterType.SHAFT_GENERATOR id_ =
        "electrical.chargers." ++ id_ ∧
      dc_meter_pfx MeterType.FUEL_CELL id_ = "electrical.chargers." ++ id_ ∧
      dc_meter_pfx MeterType.WATER_GENERATOR id_ =
        "electrical.chargers." ++ id_ ∧
      dc_meter_pfx MeterType.DC_DC_CHARGER id_ =
        "electrical.chargers." ++ id_ ∧
      dc_meter_pfx MeterType.AC_CHARGER id_ = "electrical.chargers." ++ id_ ∧
      dc_meter_pfx MeterType.GENERIC_SOURCE id_ =
        "electrical.chargers." ++ id_ ∧
      dc_meter_pfx MeterType.ALTERNATOR id_ =
        "electrical.alternators." ++ id_ ∧
      dc_meter_pfx MeterType.INVERTER id_ =
        "electrical.inverters." ++ id_ ++ ".dc") ∧
    (∀ (cfg_device : ConfiguredDevice) (d : DcEnergyMeterData)
        (id_ : String),
      transform_dc_energy_meter_data cfg_device d id_ =
        transformer (dc_meter_pfx d.meter_type id_)
          [ ("current", d.current.map SKPrim.num),
            ("power", (power d.voltage d.current).map SKPrim.num),
            ("voltage", d.voltage.map SKPrim.num) ] ++
          aux_tail cfg_device d.aux_mode d.starter_voltage d.temperature
            id_) := by
  constructor
  · intro id_
    exact ⟨rfl, rfl, rfl, rfl, rfl, rfl, rfl, rfl, rfl, rfl, rfl, rfl, rfl,
      rfl, rfl, rfl, rfl⟩
  · intro cfg_device d id_
    rw [transform_dc_energy_meter_data_eq]
    rfl

/-- Base-block members survive the battery transformer's remap branches. -/
theorem mem_transform_battery_of_base {cfg_device : ConfiguredDevice}
    {d : BatteryMonitorData} {id_ : String} {pv : PathValue}
    (h : pv ∈ battery_base d id_) :
    pv ∈ transform_battery_data cfg_device d id_ := by
  rw [transform_battery_data_eq]
  exact List.mem_append_left _ h

/-- Base-block members survive the DC energy meter transformer's remap
branches. -/
theorem mem_transform_dc_of_base {cfg_device : ConfiguredDevice}
    {d : DcEnergyMeterData} {id_ : String} {pv : PathValue}
    (h : pv ∈ dc_meter_base d id_) :
    pv ∈ transform_dc_energy_meter_data cfg_device d id_ := by
  rw [transform_dc_energy_meter_data_eq]
  exact List.mem_append_left _ h

/-- Phase-1 block members are in the AcCharger output. -/
theorem mem_transform_ac_of_phase1 {cfg_device : ConfiguredDevice}
    {d : AcChargerData} {id_ : String} {pv : PathValue}
    (h : pv ∈ transformer ("electrical.chargers." ++ id_ ++ "_1")
      [ ("chargingMode", (lower_name d.charge_state).map SKPrim.str),
        ("current", d.output_current1.map SKPrim.num),
        ("temperature", (tempK d.temperature).map SKPrim.num),
        ("voltage", d.output_voltage1.map SKPrim.num) ]) :
    pv ∈ transform_ac_charger_data cfg_device d id_ := by
  simp only [transform_ac_charger_data]
  split
  · refine List.mem_append_left _ ?_
    split
    · exact List.mem_append_left _ h
    · exact h
  · split
    · exact List.mem_append_left _ h
    · exact h

/-- The temperature entry the auxiliary remap emits in temperature mode. -/
theorem mem_aux_tail_temperature {cfg_device : ConfiguredDevice}
    {aux : AuxMode} {sv t : Option ℚ} {id_ : String} {x : ℚ}
    (haux : aux = AuxMode.TEMPERATURE) (ht : t = some x) :
    (⟨"electrical.batteries." ++ id_ ++ "." ++ "temperature",
        some (SKPrim.num (x + 273.15))⟩ : PathValue) ∈
      aux_tail cfg_device aux sv t id_ := by
  unfold aux_tail
  rw [haux]
  simp only [reduceCtorEq, if_false, if_pos]
  exact mem_transformer_of (by simp [tempK, ht])

/-- C5: the unit-normalization laws — Kelvin = Celsius + 273.15,
state-of-charge = percent / 100, coulombs = Ah × 3600, joules = Wh × 3600
(applied exactly once, including the solar charger's yieldToday), seconds
= minutes × 60 — hold for every conversion helper, and every emitted value
they feed satisfies them; every PathValue emitted under a `power` key
carries voltage × current computed at transformation time. -/
theorem c5_unit_normalization :
    (∀ c : ℚ, tempK (some c) = some (c + 273.15)) ∧
    (∀ p : ℚ, percentage (some p) = some (p / 100)) ∧
    (∀ a : ℚ, coulomb (some a) = some (a * 3600)) ∧
    (∀ w : ℚ, joule (some w) = some (w * 3600)) ∧
    (∀ m : ℚ, seconds (some m) = some (m * 60)) ∧
    (∀ v c : ℚ, power (some v) (some c) = some (v * c)) ∧
    (∀ (cfg_device : ConfiguredDevice) (d : BatteryMonitorData)
        (id_ : String) (v c : ℚ), d.voltage = some v → d.current = some c →
      (⟨"electrical.batteries." ++ id_ ++ "." ++ "power",
          some (SKPrim.num (v * c))⟩ : PathValue) ∈
        transform_battery_data cfg_device d id_) ∧
    (∀ (cfg_device : ConfiguredDevice) (d : BatteryMonitorData)
        (id_ : String) (p : ℚ), d.soc = some p →
      (⟨"electrical.batteries." ++ id_ ++ "." ++ "capacity.stateOfCharge",
          some (SKPrim.num (p / 100))⟩ : PathValue) ∈
        transform_battery_data cfg_device d id_) ∧
    (∀ (cfg_device : ConfiguredDevice) (d : BatteryMonitorData)
        (id_ : String) (a : ℚ), d.consumed_ah = some a →
      (⟨"electrical.batteries." ++ id_ ++ "."
          ++ "capacity.dischargeSinceFull",
          some (SKPrim.num (a * 3600))⟩ : PathValue) ∈
        transform_battery_data cfg_device d id_) ∧
    (∀ (cfg_device : ConfiguredDevice) (d : BatteryMonitorData)
        (id_ : String) (m : ℚ), d.remaining_mins = some m →
      (⟨"electrical.batteries." ++ id_ ++ "." ++ "capacity.timeRemaining",
          some (SKPrim.num (m * 60))⟩ : PathValue) ∈
        transform_battery_data cfg_device d id_) ∧
    (∀ (cfg_device : ConfiguredDevice) (d : BatteryMonitorData)
        (id_ : String) (t : ℚ), d.aux_mode = AuxMode.TEMPERATURE →
        d.temperature = some t →
      (⟨"electrical.batteries." ++ id_ ++ "." ++ "temperature",
          some (SKPrim.num (t + 273.15))⟩ : PathValue) ∈
        transform_battery_data cfg_device d id_) ∧
    (∀ (cfg_device : ConfiguredDevice) (d : DcEnergyMeterData)
        (id_ : String) (v c : ℚ), d.voltage = some v → d.current = some c →
      (⟨dc_meter_pfx d.meter_type id_ ++ "." ++ "power",
          some (SKPrim.num (v * c))⟩ : PathValue) ∈
        transform_dc_energy_meter_data cfg_device d id_) ∧
    (∀ (cfg_device : ConfiguredDevice) (d : LynxSmartBMSData)
        (id_ : String) (t : ℚ), d.battery_temperature = some t →
      (⟨"electrical.batteries." ++ id_ ++ "." ++ "temperature",
          some (SKPrim.num (t + 273.15))⟩ : PathValue) ∈
        transform_lynx_smart_bms_data cfg_device d id_) ∧
    (∀ (cfg_device : ConfiguredDevice) (d : LynxSmartBMSData)
        (id_ : String) (v c : ℚ), d.voltage = some v → d.current = some c →
      (⟨"electrical.batteries." ++ id_ ++ "." ++ "power",
          some (SKPrim.num (v * c))⟩ : PathValue) ∈
        transform_lynx_smart_bms_data cfg_device d id_) ∧
    (∀ (cfg_device : ConfiguredDevice) (d : SolarChargerData)
        (id_ : String) (w : ℚ), d.yield_today = some w →
      (⟨"electrical.solar." ++ id_ ++ "." ++ "yieldToday",
          some (SKPrim.num (w * 3600))⟩ : PathValue) ∈
        transform_solar_charger_data cfg_device d id_) ∧
    (∀ (cfg_device : ConfiguredDevice) (d : BatterySenseData)
        (id_ : String) (t : ℚ), d.temperature = some t →
      (⟨"electrical.batteries." ++ id_ ++ "." ++ "temperature",
          some (SKPrim.num (t + 273.15))⟩ : PathValue) ∈
        transform_battery_sense_data cfg_device d id_) ∧
    (∀ (cfg_device : ConfiguredDevice) (d : AcChargerData)
        (id_ : String) (t : ℚ), d.temperature = some t →
      (⟨"electrical.chargers." ++ id_ ++ "_1" ++ "." ++ "temperature",
          some (SKPrim.num (t + 273.15))⟩ : PathValue) ∈
        transform_ac_charger_data cfg_device d id_) ∧
    (∀ (cfg_device : ConfiguredDevice) (d : SmartLithiumData)
        (id_ : String) (t : ℚ), d.battery_temperature = some t →
      (⟨"electrical.batteries." ++ id_ ++ "." ++ "temperature",
          some (SKPrim.num (t + 273.15))⟩ : PathValue) ∈
        transform_smart_lithium_data cfg_device d id_) ∧
    (∀ (cfg_device : ConfiguredDevice) (d : VEBusData)
        (id_ : String) (t : ℚ), d.battery_temperature = some t →
      (⟨"electrical.inverters." ++ id_ ++ "." ++ "dc.temperature",
          some (SKPrim.num (t + 273.15))⟩ : PathValue) ∈
        transform_ve_bus_data cfg_device d id_) := by
  refine ⟨fun c => rfl, fun p => rfl, fun a => rfl, fun w => rfl,
    fun m => rfl, fun v c => rfl, ?_, ?_, ?_, ?_, ?_, ?_, ?_, ?_, ?_, ?_,
    ?_, ?_, ?_⟩
  · intro cfg_device d id_ v c hv hc
    exact mem_transform_battery_of_base
      (mem_transformer_of (by simp [power, hv, hc]))
  · intro cfg_device d id_ p hp
    exact mem_transform_battery_of_base
      (mem_transformer_of (by simp [percentage, hp]))
  · intro cfg_device d id_ a ha
    exact mem_transform_battery_of_base
      (mem_transformer_of (by simp [coulomb, ha]))
  · intro cfg_device d id_ m hm
    exact mem_transform_battery_of_base
      (mem_transformer_of (by simp [seconds, hm]))
  · intro cfg_device d id_ t haux ht
    rw [transform_battery_data_eq]
    exact List.mem_append_right _ (mem_aux_tail_temperature haux ht)
  · intro cfg_device d id_ v c hv hc
    exact mem_transform_dc_of_base
      (mem_transformer_of (by simp [power, hv, hc]))
  · intro cfg_device d id_ t ht
    exact mem_transformer_of (by simp [tempK, ht])
  · intro cfg_device d id_ v c hv hc
    exact mem_transformer_of (by simp [power, hv, hc])
  · intro cfg_device d id_ w hw
    exact mem_transformer_of (by simp [joule, hw])
  · intro cfg_device d id_ t ht
    exact mem_transformer_of (by simp [tempK, ht])
  · intro cfg_device d id_ t ht
    exact mem_transform_ac_of_phase1
      (mem_transformer_of (by simp [tempK, ht]))
  · intro cfg_device d id_ t ht
    exact mem_transformer_of (by simp [tempK, ht])
  · intro cfg_device d id_ t ht
    exact mem_transformer_of (by simp [tempK, ht])

/-- Configured device fixture for the C5 witness. -/
def c5wcfg : ConfiguredDevice :=
  { id := "w", mac := "dd:dd:dd:dd:dd:dd", advertisement_key := "k5",
    secondary_battery := none }

/-- BatteryMonitor fixture for the C5 witness: voltage and current
present. -/
def c5wdata : BatteryMonitorData :=
  { consumed_ah := none, soc := none, remaining_mins := none,
    current := some 2, voltage := some 13, aux_mode := AuxMode.DISABLED,
    starter_voltage := none, temperature := none }

/-- C5 witness: the emitted power of a concrete battery reading equals
voltage × current. -/
theorem c5_witness :
    (⟨"electrical.batteries." ++ "w" ++ "." ++ "power",
        some (SKPrim.num (13 * 2))⟩ : PathValue) ∈
      transform_battery_data c5wcfg c5wdata ("w") :=
  c5_unit_normalization.2.2.2.2.2.2.1 c5wcfg c5wdata ("w") 13 2 rfl rfl

/-- C6: the MAC lookup path is case-insensitive — `main` keys the
registry by the lowercased MAC, the frame callback lowercases the
transport address before its registry subscript, and the scanning
library's `load_key` call receives a lowercased address (spec §4.1), so
any address differing from a registered MAC only in letter case
resolves to a key. -/
theorem c6_registry_case_insensitive (devs : List ConfigEntry)
    (e : ConfigEntry) (a : String) (he : e ∈ devs)
    (ha : pyLower a = pyLower e.mac) :
    (∃ cfg_device, dictLookup (build_registry devs) (pyLower a) =
        some cfg_device) ∧
    (∃ k, load_key_via_scanner (build_registry devs) a = Except.ok k) := by
  have hmem : (pyLower e.mac,
      ({ id := e.id, mac := e.mac, advertisement_key := e.key,
         secondary_battery := e.secondary_battery } : ConfiguredDevice)) ∈
      build_registry devs := by
    exact List.mem_map_of_mem _ he
  rw [ha]
  obtain ⟨c, hc⟩ := dictLookup_isSome_of_mem hmem
  refine ⟨⟨c, hc⟩, ?_⟩
  refine ⟨c.advertisement_key, ?_⟩
  unfold load_key_via_scanner load_key
  rw [ha, hc]

/-- Concrete roster entry for the C6 witness. -/
def c6entry : ConfigEntry :=
  { mac := "AA:BB:CC:DD:EE:FF", id := "house", key := "K6",
    secondary_battery := none }

/-- C6 witness: a mixed-case transport address resolves against a
mixed-case configured MAC. -/
theorem c6_witness :
    (∃ cfg_device,
      dictLookup (build_registry [c6entry]) (pyLower ("aa:bb:Cc:dd:ee:ff")) =
        some cfg_device) ∧
    (∃ k, load_key_via_scanner (build_registry [c6entry])
        ("aa:bb:Cc:dd:ee:ff") = Except.ok k) :=
  c6_registry_case_insensitive [c6entry] c6entry ("aa:bb:Cc:dd:ee:ff")
    (by simp) (by decide)

/-- Frame fixture for the C7 counterexample: the device is detected but
`device.parse(raw_data)` raises. -/
def c7frame : Frame :=
  { address := "aa:bb:cc:dd:ee:ff",
    get_device_result := GetDeviceResult.ok,
    parse_result := Except.error ("struct.error: malformed frame") }

/-- C7 counterexample: a decode failure raised while parsing the raw
frame is NOT caught — `device.parse(raw_data)` sits outside the
try/except, so the exception propagates out of the callback instead of
being logged and dropped. -/
theorem c7_counterexample :
    callback [] c7frame ("2026-10-12T00:00:00") =
      Except.error ("struct.error: malformed frame") := rfl

/-- C7 amended: per-frame failure handling as the code implements it — a
missing advertisement key is silently dropped, an unknown device kind is
logged and dropped, but an error raised while parsing the frame
propagates out of the callback uncaught. -/
theorem c7_error_taxonomy_amended
    (devices : List (String × ConfiguredDevice)) (f : Frame)
    (now_iso : String) :
    (f.get_device_result = GetDeviceResult.advertisementKeyMissing →
      callback devices f now_iso =
        Except.ok CallbackOutcome.droppedSilently) ∧
    (∀ m, f.get_device_result = GetDeviceResult.unknownDevice m →
      callback devices f now_iso =
        Except.ok (CallbackOutcome.droppedLogged m)) ∧
    (∀ e, f.get_device_result = GetDeviceResult.ok →
      f.parse_result = Except.error e →
      callback devices f now_iso = Except.error e) := by
  refine ⟨?_, ?_, ?_⟩
  · intro h
    unfold callback
    rw [h]
  · intro m h
    unfold callback
    rw [h]
  · intro e hg hp
    unfold callback
    rw [hg, hp]

/-- Frame fixture for the C7 witness: the advertisement key is missing. -/
def c7wframe : Frame :=
  { address := "11:22:33:44:55:66",
    get_device_result := GetDeviceResult.advertisementKeyMissing,
    parse_result := Except.error ("unused") }

/-- C7 witness: a frame from an unregistered address is silently
dropped. -/
theorem c7_witness :
    callback [] c7wframe ("2026-10-12T00:00:01") =
      Except.ok CallbackOutcome.droppedSilently :=
  (c7_error_taxonomy_amended [] c7wframe ("2026-10-12T00:00:01")).1 rfl

/-- Every auxiliary-tail path leads with `"electrical."`. -/
theorem aux_tail_epath {cfg_device : ConfiguredDevice} {aux : AuxMode}
    {sv t : Option ℚ} {id_ : String} {pv : PathValue}
    (hm : pv ∈ aux_tail cfg_device aux sv t id_) :
    ∃ s, pv.path = "electrical." ++ s := by
  unfold aux_tail at hm
  by_cases h1 : aux = AuxMode.STARTER_VOLTAGE
  · rw [if_pos h1] at hm
    by_cases h2 : strTruthy cfg_device.secondary_battery
    · rw [if_pos h2] at hm
      simp only [List.mem_singleton] at hm
      subst hm
      exact epath_append (".voltage")
        (epath_append _ ⟨"batteries.", rfl⟩)
    · rw [if_neg h2] at hm
      simp at hm
  · rw [if_neg h1] at hm
    by_cases h3 : aux = AuxMode.TEMPERATURE
    · rw [if_pos h3] at hm
      exact epath_of_mem_transformer (epath_append id_ ⟨"batteries.", rfl⟩)
        hm
    · rw [if_neg h3] at hm
      simp at hm

/-- C10: every PathValue any transformer in the dispatch table produces,
for every device kind, configured device and reading, has a path that
begins with the literal prefix `"electrical."`. -/
theorem c10_paths_electrical (cfg_device : ConfiguredDevice) (r : Reading)
    (id_ : String) :
    ∀ pv ∈ transform cfg_device r id_, ∃ t, pv.path = "electrical." ++ t := by
  intro pv hm
  cases r with
  | acCharger d =>
    simp only [transform] at hm
    obtain ⟨n, entries, -, hmem⟩ := transform_ac_charger_mem_block hm
    exact epath_of_mem_transformer
      (epath_append n (epath_append id_ ⟨"chargers.", rfl⟩)) hmem
  | batteryMonitor d =>
    simp only [transform] at hm
    rw [transform_battery_data_eq] at hm
    rcases List.mem_append.1 hm with hb | ht
    · exact epath_of_mem_transformer (epath_append id_ ⟨"batteries.", rfl⟩)
        hb
    · exact aux_tail_epath ht
  | batterySense d =>
    simp only [transform] at hm
    exact epath_of_mem_transformer (epath_append id_ ⟨"batteries.", rfl⟩) hm
  | dcdcConverter d =>
    simp only [transform] at hm
    exact epath_of_mem_transformer (epath_append id_ ⟨"converters.", rfl⟩)
      hm
  | dcEnergyMeter d =>
    simp only [transform] at hm
    rw [transform_dc_energy_meter_data_eq] at hm
    rcases List.mem_append.1 hm with hb | ht
    · exact epath_of_mem_transformer (dc_meter_pfx_epath d.meter_type id_)
        hb
    · exact aux_tail_epath ht
  | inverter d =>
    simp only [transform] at hm
    exact epath_of_mem_transformer (epath_append id_ ⟨"inverters.", rfl⟩) hm
  | lynxSmartBMS d =>
    simp only [transform] at hm
    exact epath_of_mem_transformer (epath_append id_ ⟨"batteries.", rfl⟩) hm
  | orionXS d =>
    simp only [transform] at hm
    exact epath_of_mem_transformer (epath_append id_ ⟨"converters.", rfl⟩)
      hm
  | smartLithium d =>
    simp only [transform] at hm
    exact epath_of_mem_transformer (epath_append id_ ⟨"batteries.", rfl⟩) hm
  | solarCharger d =>
    simp only [transform] at hm
    exact epath_of_mem_transformer (epath_append id_ ⟨"solar.", rfl⟩) hm
  | veBus d =>
    simp only [transform] at hm
    exact epath_of_mem_transformer (epath_append id_ ⟨"inverters.", rfl⟩) hm

/-- Configured device fixture for the C10 witness. -/
def c10wcfg : ConfiguredDevice :=
  { id := "bs", mac := "ee:ee:ee:ee:ee:ee", advertisement_key := "k10",
    secondary_battery := none }

/-- BatterySense fixture for the C10 witness. -/
def c10wdata : BatterySenseData :=
  { temperature := none, voltage := some 12 }

/-- C10 witness: the voltage path of a concrete BatterySense frame starts
with `"electrical."`. -/
theorem c10_witness :
    ∃ t, ("electrical.batteries.bs.voltage" : String) =
      "electrical." ++ t :=
  c10_paths_electrical c10wcfg (Reading.batterySense c10wdata) ("bs")
    ⟨"electrical.batteries.bs.voltage", some (SKPrim.num 12)⟩
    (by simp [transform, transform_battery_sense_data, transformer,
      c10wdata, tempK])

end SignalKVictron

